import Mathlib

/-!
Verification development for the base stackable stream endpoint in
src/genio/genio_base.c.  The mutable struct basen_data is shallowly
embedded as an explicit record threaded through pure functions; the
external collaborators (the lower layer LL and the optional filter)
are abstracted as oracles supplied through an environment record, and
every observable side effect of the C code (LL enable toggles, LL
close calls, filter handshake calls, user callbacks, timer starts,
deferred-op scheduling, lock operations and state assignments) is
recorded in an event trace in program order.
-/

namespace GenioBase

/-- Errno value EBADF as used by basen_write. -/
def EBADF : Int := 9

/-- Errno value EAGAIN, the retry-after-timeout result of the filter handshake calls. -/
def EAGAIN : Int := 11

/-- Errno value EBUSY as returned by basen_close in non-closable states. -/
def EBUSY : Int := 16

/-- Errno value ECOMM passed to basen_ll_close_on_err by basen_ll_read. -/
def ECOMM : Int := 70

/-- Errno value ECONNRESET, used as a sample nonzero LL error. -/
def ECONNRESET : Int := 104

/-- Errno value EINPROGRESS, the deferred-completion result of LL open and close. -/
def EINPROGRESS : Int := 115

/-- The seven values of enum basen_state in genio_base.c. -/
inductive BasenState
  | BASEN_CLOSED
  | BASEN_IN_LL_OPEN
  | BASEN_IN_FILTER_OPEN
  | BASEN_OPEN
  | BASEN_CLOSE_WAIT_DRAIN
  | BASEN_IN_FILTER_CLOSE
  | BASEN_IN_LL_CLOSE
  deriving DecidableEq, Repr

/-- Which completion callback a call to ll_close registers: basen_ll_close_done
(normal) or basen_ll_close_on_err carrying an error value cast through close_data. -/
inductive CloseKind
  | normal
  | onErr (e : Int)
  deriving DecidableEq, Repr

/-- Observable effects emitted by the embedded code, recorded in program order. -/
inductive Ev
  | lock
  | unlock
  | llSetRead (b : Bool)
  | llSetWrite (b : Bool)
  | stateSet (s : BasenState)
  | llCloseCall (k : CloseKind)
  | tryConnect
  | tryDisconnect
  | startTimer
  | schedOp
  | cleanup
  | ulWrite (flush : Bool)
  | llWriteCall
  | fltLLWrite (flush : Bool)
  | userRead (err : Int) (buf : Option (List Nat))
  | userWrite
  | openDone (err : Int)
  | closeDone
  deriving DecidableEq, Repr

/-- The filter op table (struct genio_filter_ops) restricted to the operations
the embedded code paths use.  The filter is stateful; its abstract state has
type F and is threaded explicitly. -/
structure FilterOps (F : Type) where
  ul_read_pending : F → Bool
  ll_write_pending : F → Bool
  ll_read_needed : F → Bool
  check_open_done : F → Int
  try_connect : F → F × Int
  try_disconnect : F → F × Int
  ul_write : F → Option (List Nat) → F × Int × Nat
  ll_write : F → Option (List Nat) → F × Nat

/-- The environment: filter ops plus the results of the LL operations the
embedded paths invoke, and the count the user read callback returns. -/
structure Env (F : Type) where
  flt : FilterOps F
  ll_close_ret : Int
  ll_write_ret : Int × Nat
  user_read : Option (List Nat) → Nat

/-- The fields of struct basen_data that the embedded code paths read or
write.  Callback pointers are modelled by whether they are installed. -/
structure BasenData (F : Type) where
  state : BasenState
  refcount : Nat
  freeref : Nat
  hasFilter : Bool
  f : F
  open_done : Bool
  close_done : Bool
  read_enabled : Bool
  in_read : Bool
  xmit_enabled : Bool
  tmp_xmit_enabled : Bool
  saved_xmit_err : Int
  ll_err_occurred : Bool
  deferred_op_pending : Bool
  deferred_read : Bool
  deferred_open : Bool
  deferred_close : Bool
  cbs : Bool
  deriving DecidableEq, Repr

/-- Result of a void function: the updated endpoint and the emitted trace. -/
structure StepRes (F : Type) where
  nd : BasenData F
  tr : List Ev
  deriving DecidableEq, Repr

/-- Result of basen_close: updated endpoint, return value, trace. -/
structure CloseRes (F : Type) where
  nd : BasenData F
  ret : Int
  tr : List Ev
  deriving DecidableEq, Repr

/-- Result of basen_write: updated endpoint, return value, rcount, trace. -/
structure WriteRes (F : Type) where
  nd : BasenData F
  err : Int
  consumed : Option Nat
  tr : List Ev
  deriving DecidableEq, Repr

/-- Result of a function returning a byte count: updated endpoint, count, trace. -/
structure CountRes (F : Type) where
  nd : BasenData F
  cnt : Nat
  tr : List Ev
  deriving DecidableEq, Repr

/-- Result of filter_ul_write: updated endpoint, error, count written, trace. -/
structure UlWriteRes (F : Type) where
  nd : BasenData F
  err : Int
  cnt : Nat
  tr : List Ev
  deriving DecidableEq, Repr

variable {F : Type}

/-- Wrapper filter_ul_read_pending: false when no filter is installed. -/
def filter_ul_read_pending (env : Env F) (nd : BasenData F) : Bool :=
  if nd.hasFilter then env.flt.ul_read_pending nd.f else false

/-- Wrapper filter_ll_write_pending: false when no filter is installed. -/
def filter_ll_write_pending (env : Env F) (nd : BasenData F) : Bool :=
  if nd.hasFilter then env.flt.ll_write_pending nd.f else false

/-- Wrapper filter_ll_read_needed: false when no filter is installed. -/
def filter_ll_read_needed (env : Env F) (nd : BasenData F) : Bool :=
  if nd.hasFilter then env.flt.ll_read_needed nd.f else false

/-- Wrapper filter_check_open_done: 0 when no filter is installed. -/
def filter_check_open_done (env : Env F) (nd : BasenData F) : Int :=
  if nd.hasFilter then env.flt.check_open_done nd.f else 0

/-- Wrapper filter_try_connect: returns 0 and does nothing when no filter. -/
def filter_try_connect (env : Env F) (nd : BasenData F) :
    BasenData F × Int × List Ev :=
  if nd.hasFilter then
    let r := env.flt.try_connect nd.f
    ({nd with f := r.1}, r.2, [Ev.tryConnect])
  else (nd, 0, [])

/-- Wrapper filter_try_disconnect: returns 0 and does nothing when no filter. -/
def filter_try_disconnect (env : Env F) (nd : BasenData F) :
    BasenData F × Int × List Ev :=
  if nd.hasFilter then
    let r := env.flt.try_disconnect nd.f
    ({nd with f := r.1}, r.2, [Ev.tryDisconnect])
  else (nd, 0, [])

/-- Wrapper filter_ul_write: with a filter, drive the filter ul_write (the
handler it is given writes to the LL); without one, the handler
basen_write_data_handler is invoked directly, which calls ll_write. -/
def filter_ul_write (env : Env F) (nd : BasenData F) (buf : Option (List Nat)) :
    UlWriteRes F :=
  if nd.hasFilter then
    let r := env.flt.ul_write nd.f buf
    ⟨{nd with f := r.1}, r.2.1, r.2.2, [Ev.ulWrite buf.isNone]⟩
  else
    ⟨nd, env.ll_write_ret.1, env.ll_write_ret.2, [Ev.llWriteCall]⟩

/-- Translation of basen_read_data_handler: drop the bytes when the endpoint
is not open for reading, otherwise deliver them to the user read callback
and report what the user consumed. -/
def basen_read_data_handler (env : Env F) (nd : BasenData F)
    (buf : Option (List Nat)) : Nat × List Ev :=
  if nd.state ≠ BasenState.BASEN_OPEN ∨ nd.read_enabled = false then (0, [])
  else (env.user_read buf, [Ev.userRead 0 buf])

/-- Wrapper filter_ll_write: with a filter, drive the filter ll_write (the
handler it is given is basen_read_data_handler); without one, the handler
is invoked directly. -/
def filter_ll_write_w (env : Env F) (nd : BasenData F) (buf : Option (List Nat)) :
    CountRes F :=
  if nd.hasFilter then
    let r := env.flt.ll_write nd.f buf
    ⟨{nd with f := r.1}, r.2, [Ev.fltLLWrite buf.isNone]⟩
  else
    let h := basen_read_data_handler env nd buf
    ⟨nd, h.1, h.2⟩

/-- Translation of basen_sched_deferred_op: schedule the runner once,
taking a refcount for it. -/
def basen_sched_deferred_op (nd : BasenData F) : StepRes F :=
  if nd.deferred_op_pending then ⟨nd, []⟩
  else ⟨{nd with deferred_op_pending := true, refcount := nd.refcount + 1},
        [Ev.schedOp]⟩

/-- Translation of ll_close: issue the LL close registering completion k; on
EINPROGRESS take a refcount for the outstanding call, otherwise mark the
close completion as deferred work and schedule the runner. -/
def ll_close (env : Env F) (nd : BasenData F) (k : CloseKind) : StepRes F :=
  if env.ll_close_ret = EINPROGRESS then
    ⟨{nd with refcount := nd.refcount + 1}, [Ev.llCloseCall k]⟩
  else
    let r := basen_sched_deferred_op {nd with deferred_close := true}
    ⟨r.nd, Ev.llCloseCall k :: r.tr⟩

/-- Translation of basen_set_ll_enables, the enable arbiter. -/
def basen_set_ll_enables (env : Env F) (nd : BasenData F) : List Ev :=
  (if filter_ll_write_pending env nd || nd.xmit_enabled || nd.tmp_xmit_enabled
   then [Ev.llSetWrite true] else []) ++
  (if (((nd.read_enabled && !filter_ul_read_pending env nd) ||
          filter_ll_read_needed env nd) &&
         (nd.state = BasenState.BASEN_OPEN) ||
        (nd.state = BasenState.BASEN_IN_FILTER_OPEN) ||
        (nd.state = BasenState.BASEN_IN_FILTER_CLOSE)) && !nd.in_read
   then [Ev.llSetRead true] else [])

/-- Translation of basen_try_close: disable both LL callbacks, drive the
filter try_disconnect one step, and on completion move to BASEN_IN_LL_CLOSE
and issue the LL close with the normal completion. -/
def basen_try_close (env : Env F) (nd : BasenData F) : StepRes F :=
  let t0 : List Ev := [Ev.llSetWrite false, Ev.llSetRead false]
  let p := filter_try_disconnect env nd
  let t1 := t0 ++ p.2.2
  if p.2.1 = EINPROGRESS then ⟨p.1, t1⟩
  else if p.2.1 = EAGAIN then ⟨p.1, t1 ++ [Ev.startTimer]⟩
  else
    let nd2 := {p.1 with state := BasenState.BASEN_IN_LL_CLOSE}
    let r := ll_close env nd2 CloseKind.normal
    ⟨r.nd, t1 ++ [Ev.stateSet BasenState.BASEN_IN_LL_CLOSE] ++ r.tr⟩

/-- Translation of basen_i_close: record the close completion, then either
skip straight to BASEN_IN_LL_CLOSE when an LL error occurred, wait for the
filter to drain, or start the filter disconnect handshake; finally run the
enable arbiter. -/
def basen_i_close (env : Env F) (nd : BasenData F) (cd : Bool) : StepRes F :=
  let nd0 := {nd with close_done := cd}
  if nd0.ll_err_occurred then
    let nd1 := {nd0 with state := BasenState.BASEN_IN_LL_CLOSE}
    let r := ll_close env nd1 CloseKind.normal
    ⟨r.nd, [Ev.stateSet BasenState.BASEN_IN_LL_CLOSE] ++ r.tr ++
           basen_set_ll_enables env r.nd⟩
  else if filter_ll_write_pending env nd0 then
    let nd1 := {nd0 with state := BasenState.BASEN_CLOSE_WAIT_DRAIN}
    ⟨nd1, [Ev.stateSet BasenState.BASEN_CLOSE_WAIT_DRAIN] ++
          basen_set_ll_enables env nd1⟩
  else
    let nd1 := {nd0 with state := BasenState.BASEN_IN_FILTER_CLOSE}
    let r := basen_try_close env nd1
    ⟨r.nd, [Ev.stateSet BasenState.BASEN_IN_FILTER_CLOSE] ++ r.tr ++
           basen_set_ll_enables env r.nd⟩

/-- Translation of basen_close: accepted from BASEN_OPEN, and from the two
opening states where it additionally drops the refcount unit held by the
in-flight open (basen_deref); any other state fails with EBUSY. -/
def basen_close (env : Env F) (nd : BasenData F) (cd : Bool) : CloseRes F :=
  if nd.state ≠ BasenState.BASEN_OPEN then
    if nd.state = BasenState.BASEN_IN_FILTER_OPEN ∨
        nd.state = BasenState.BASEN_IN_LL_OPEN then
      let r := basen_i_close env nd cd
      ⟨{r.nd with refcount := r.nd.refcount - 1}, 0,
        [Ev.lock] ++ r.tr ++ [Ev.unlock]⟩
    else ⟨nd, EBUSY, [Ev.lock, Ev.unlock]⟩
  else
    let r := basen_i_close env nd cd
    ⟨r.nd, 0, [Ev.lock] ++ r.tr ++ [Ev.unlock]⟩

/-- Translation of basen_finish_open: on error clean the filter up and go
back to BASEN_CLOSED, otherwise become BASEN_OPEN; then fire the user
open_done completion (lock dropped around it) when one is installed. -/
def basen_finish_open (nd : BasenData F) (err : Int) : StepRes F :=
  let p : BasenData F × List Ev :=
    if err ≠ 0 then
      ({nd with state := BasenState.BASEN_CLOSED},
       [Ev.stateSet BasenState.BASEN_CLOSED] ++
         (if nd.hasFilter then [Ev.cleanup] else []))
    else ({nd with state := BasenState.BASEN_OPEN},
          [Ev.stateSet BasenState.BASEN_OPEN])
  if p.1.open_done then ⟨p.1, p.2 ++ [Ev.unlock, Ev.openDone err, Ev.lock]⟩
  else ⟨p.1, p.2⟩

/-- Translation of basen_finish_close: clean the filter up, become
BASEN_CLOSED, and fire the user close_done completion (lock dropped around
it) when one is installed. -/
def basen_finish_close (nd : BasenData F) : StepRes F :=
  let nd1 := {nd with state := BasenState.BASEN_CLOSED}
  let t0 := (if nd.hasFilter then [Ev.cleanup] else []) ++
            [Ev.stateSet BasenState.BASEN_CLOSED]
  if nd1.close_done then ⟨nd1, t0 ++ [Ev.unlock, Ev.closeDone, Ev.lock]⟩
  else ⟨nd1, t0⟩

/-- Translation of basen_ll_close_done, the normal LL close completion:
finish the close and drop the refcount held for the outstanding LL call. -/
def basen_ll_close_done (nd : BasenData F) : StepRes F :=
  let r := basen_finish_close nd
  ⟨{r.nd with refcount := r.nd.refcount - 1}, [Ev.lock] ++ r.tr ++ [Ev.unlock]⟩

/-- Translation of basen_ll_close_on_err, the LL close completion used on the
error paths: finish the open with the carried error and drop the refcount
held for the outstanding LL call. -/
def basen_ll_close_on_err (nd : BasenData F) (err : Int) : StepRes F :=
  let r := basen_finish_open nd err
  ⟨{r.nd with refcount := r.nd.refcount - 1}, [Ev.lock] ++ r.tr ++ [Ev.unlock]⟩

/-- Translation of basen_try_connect: only meaningful in
BASEN_IN_FILTER_OPEN (the code asserts and then guards); disable both LL
callbacks, drive the filter try_connect one step, on success run
check_open_done, and finish the open or move to BASEN_IN_LL_CLOSE with the
error carried to basen_ll_close_on_err. -/
def basen_try_connect (env : Env F) (nd : BasenData F) : StepRes F :=
  if nd.state ≠ BasenState.BASEN_IN_FILTER_OPEN then ⟨nd, []⟩
  else
    let t0 : List Ev := [Ev.llSetWrite false, Ev.llSetRead false]
    let p := filter_try_connect env nd
    let t1 := t0 ++ p.2.2
    if p.2.1 = EINPROGRESS then ⟨p.1, t1⟩
    else if p.2.1 = EAGAIN then ⟨p.1, t1 ++ [Ev.startTimer]⟩
    else
      let e2 := if p.2.1 = 0 then filter_check_open_done env p.1 else p.2.1
      if e2 ≠ 0 then
        let nd2 := {p.1 with state := BasenState.BASEN_IN_LL_CLOSE}
        let r := ll_close env nd2 (CloseKind.onErr e2)
        ⟨r.nd, t1 ++ [Ev.stateSet BasenState.BASEN_IN_LL_CLOSE] ++ r.tr⟩
      else
        let r := basen_finish_open p.1 0
        ⟨r.nd, t1 ++ r.tr⟩

/-- Translation of basen_ll_open_done, the LL open completion: on error
finish the open with it, otherwise enter BASEN_IN_FILTER_OPEN and drive
try_connect; in both cases drop the refcount held for the outstanding LL
open. -/
def basen_ll_open_done (env : Env F) (nd : BasenData F) (err : Int) : StepRes F :=
  if err ≠ 0 then
    let r := basen_finish_open nd err
    ⟨{r.nd with refcount := r.nd.refcount - 1}, [Ev.lock] ++ r.tr ++ [Ev.unlock]⟩
  else
    let nd1 := {nd with state := BasenState.BASEN_IN_FILTER_OPEN}
    let r := basen_try_connect env nd1
    let te := basen_set_ll_enables env r.nd
    ⟨{r.nd with refcount := r.nd.refcount - 1},
      [Ev.lock, Ev.stateSet BasenState.BASEN_IN_FILTER_OPEN] ++ r.tr ++ te ++
        [Ev.unlock]⟩

/-- Translation of basen_write: EBADF when not open, otherwise deliver a
recorded saved_xmit_err exactly once, otherwise pass the bytes to the filter
ul_write; always re-run the enable arbiter on the way out. -/
def basen_write (env : Env F) (nd : BasenData F) (buf : List Nat) : WriteRes F :=
  if nd.state ≠ BasenState.BASEN_OPEN then
    ⟨nd, EBADF, none, [Ev.lock] ++ basen_set_ll_enables env nd ++ [Ev.unlock]⟩
  else if nd.saved_xmit_err ≠ 0 then
    let nd1 := {nd with saved_xmit_err := 0}
    ⟨nd1, nd.saved_xmit_err, none,
      [Ev.lock] ++ basen_set_ll_enables env nd1 ++ [Ev.unlock]⟩
  else
    let r := filter_ul_write env nd (some buf)
    ⟨r.nd, r.err, some r.cnt,
      [Ev.lock] ++ r.tr ++ basen_set_ll_enables env r.nd ++ [Ev.unlock]⟩

/-- Translation of the readerr branch body of basen_ll_read (entered with
read_enabled already cleared and ll_err_occurred already set). -/
def basen_ll_read_err_branch (env : Env F) (nd : BasenData F) (readerr : Int) :
    StepRes F :=
  if nd.state = BasenState.BASEN_IN_FILTER_OPEN ∨
      nd.state = BasenState.BASEN_IN_LL_OPEN then
    let nd2 := {nd with state := BasenState.BASEN_IN_LL_CLOSE}
    let r := ll_close env nd2 (CloseKind.onErr ECOMM)
    ⟨r.nd, Ev.stateSet BasenState.BASEN_IN_LL_CLOSE :: r.tr⟩
  else if nd.state = BasenState.BASEN_CLOSE_WAIT_DRAIN ∨
      nd.state = BasenState.BASEN_IN_FILTER_CLOSE then
    let nd2 := {nd with state := BasenState.BASEN_IN_LL_CLOSE}
    let r := ll_close env nd2 CloseKind.normal
    ⟨r.nd, Ev.stateSet BasenState.BASEN_IN_LL_CLOSE :: r.tr⟩
  else if nd.cbs then
    ⟨nd, [Ev.unlock, Ev.userRead readerr none, Ev.lock]⟩
  else
    basen_i_close env nd false

/-- Translation of basen_ll_read, the LL read callback: disable LL read
first; on a read error clear read_enabled, set ll_err_occurred and dispatch
on the state; otherwise skip when a deferred read is in flight, else push
the bytes through the filter ll_write and re-drive a pending handshake.
Returns the count of bytes consumed. -/
def basen_ll_read (env : Env F) (nd : BasenData F) (readerr : Int)
    (ibuf : List Nat) : CountRes F :=
  let t0 : List Ev := [Ev.lock, Ev.llSetRead false]
  if readerr ≠ 0 then
    let nd1 := {nd with read_enabled := false, ll_err_occurred := true}
    let r := basen_ll_read_err_branch env nd1 readerr
    ⟨r.nd, 0, t0 ++ r.tr ++ basen_set_ll_enables env r.nd ++ [Ev.unlock]⟩
  else if nd.in_read then ⟨nd, 0, t0 ++ [Ev.unlock]⟩
  else if ibuf.length > 0 then
    let nd1 := {nd with in_read := true}
    let r := filter_ll_write_w env nd1 (some ibuf)
    let nd2 := {r.nd with in_read := false}
    let pc : StepRes F :=
      if nd2.state = BasenState.BASEN_IN_FILTER_OPEN then
        basen_try_connect env nd2
      else ⟨nd2, []⟩
    let pd : StepRes F :=
      if pc.nd.state = BasenState.BASEN_IN_FILTER_CLOSE then
        basen_try_close env pc.nd
      else ⟨pc.nd, []⟩
    ⟨pd.nd, r.cnt,
      t0 ++ [Ev.unlock] ++ r.tr ++ [Ev.lock] ++ pc.tr ++ pd.tr ++
        basen_set_ll_enables env pd.nd ++ [Ev.unlock]⟩
  else ⟨nd, 0, t0 ++ basen_set_ll_enables env nd ++ [Ev.unlock]⟩

/-- Translation of the drain section of basen_ll_write_ready: flush the
filter when it has LL-bound bytes (recording a flush error in
saved_xmit_err), advance BASEN_CLOSE_WAIT_DRAIN to BASEN_IN_FILTER_CLOSE
once drained, and re-drive a pending handshake. -/
def basen_ll_write_ready_mid (env : Env F) (nd : BasenData F) : StepRes F :=
  let pf : StepRes F :=
    if filter_ll_write_pending env nd then
      let r := filter_ul_write env nd none
      if r.err ≠ 0 then ⟨{r.nd with saved_xmit_err := r.err}, r.tr⟩
      else ⟨r.nd, r.tr⟩
    else ⟨nd, []⟩
  let pw : StepRes F :=
    if pf.nd.state = BasenState.BASEN_CLOSE_WAIT_DRAIN ∧
        filter_ll_write_pending env pf.nd = false then
      ⟨{pf.nd with state := BasenState.BASEN_IN_FILTER_CLOSE},
        pf.tr ++ [Ev.stateSet BasenState.BASEN_IN_FILTER_CLOSE]⟩
    else ⟨pf.nd, pf.tr⟩
  let pc : StepRes F :=
    if pw.nd.state = BasenState.BASEN_IN_FILTER_OPEN then
      let r := basen_try_connect env pw.nd
      ⟨r.nd, pw.tr ++ r.tr⟩
    else ⟨pw.nd, pw.tr⟩
  if pc.nd.state = BasenState.BASEN_IN_FILTER_CLOSE then
    let r := basen_try_close env pc.nd
    ⟨r.nd, pc.tr ++ r.tr⟩
  else ⟨pc.nd, pc.tr⟩

/-- Translation of basen_ll_write_ready, the LL write-ready callback:
disable LL write, run the drain section, invoke the user write callback
when transmit reporting is enabled, nothing is pending and the state is not
BASEN_IN_FILTER_OPEN, clear tmp_xmit_enabled, and re-run the enable
arbiter. -/
def basen_ll_write_ready (env : Env F) (nd : BasenData F) : StepRes F :=
  let a := basen_ll_write_ready_mid env nd
  let t4 : List Ev :=
    if a.nd.state ≠ BasenState.BASEN_IN_FILTER_OPEN ∧
        filter_ll_write_pending env a.nd = false ∧ a.nd.xmit_enabled = true then
      [Ev.unlock, Ev.userWrite, Ev.lock]
    else []
  let nd3 := {a.nd with tmp_xmit_enabled := false}
  ⟨nd3, [Ev.lock, Ev.llSetWrite false] ++ a.tr ++ t4 ++
        basen_set_ll_enables env nd3 ++ [Ev.unlock]⟩

/-- Translation of basen_set_read_callback_enable: a no-op in the closed and
closing states; otherwise record the new read interest and either leave it
to the read/open handling, schedule a deferred read, or re-run the enable
arbiter. -/
def basen_set_read_callback_enable (env : Env F) (nd : BasenData F)
    (enabled : Bool) : StepRes F :=
  if nd.state = BasenState.BASEN_CLOSED ∨
      nd.state = BasenState.BASEN_IN_FILTER_CLOSE ∨
      nd.state = BasenState.BASEN_IN_LL_CLOSE then
    ⟨nd, [Ev.lock, Ev.unlock]⟩
  else
    let nd1 := {nd with read_enabled := enabled}
    let rp := filter_ul_read_pending env nd1
    if nd1.in_read = true ∨ nd1.state = BasenState.BASEN_IN_FILTER_OPEN ∨
        nd1.state = BasenState.BASEN_IN_LL_OPEN ∨
        (rp = true ∧ enabled = false) then
      ⟨nd1, [Ev.lock, Ev.unlock]⟩
    else if rp then
      let r := basen_sched_deferred_op
        {nd1 with in_read := true, deferred_read := true}
      ⟨r.nd, [Ev.lock] ++ r.tr ++ [Ev.unlock]⟩
    else
      ⟨nd1, [Ev.lock] ++ basen_set_ll_enables env nd1 ++ [Ev.unlock]⟩

/-- Translation of basen_set_write_callback_enable: a no-op in the closed
and closing states; otherwise record the new transmit interest and re-run
the enable arbiter when it changed. -/
def basen_set_write_callback_enable (env : Env F) (nd : BasenData F)
    (enabled : Bool) : StepRes F :=
  if nd.state = BasenState.BASEN_CLOSED ∨
      nd.state = BasenState.BASEN_IN_FILTER_CLOSE ∨
      nd.state = BasenState.BASEN_IN_LL_CLOSE then
    ⟨nd, [Ev.lock, Ev.unlock]⟩
  else if nd.xmit_enabled ≠ enabled then
    let nd1 := {nd with xmit_enabled := enabled}
    ⟨nd1, [Ev.lock] ++ basen_set_ll_enables env nd1 ++ [Ev.unlock]⟩
  else ⟨nd, [Ev.lock, Ev.unlock]⟩

/-- Trivial filter instance used for concrete witnesses: nothing pending,
handshakes complete immediately, writes succeed. -/
def fltU : FilterOps Unit where
  ul_read_pending := fun _ => false
  ll_write_pending := fun _ => false
  ll_read_needed := fun _ => false
  check_open_done := fun _ => 0
  try_connect := fun _ => ((), 0)
  try_disconnect := fun _ => ((), 0)
  ul_write := fun _ _ => ((), 0, 0)
  ll_write := fun _ _ => ((), 0)

/-- Concrete environment for witnesses: trivial filter, LL close completes
later (EINPROGRESS), LL write accepts nothing, user consumes nothing. -/
def envU : Env Unit where
  flt := fltU
  ll_close_ret := EINPROGRESS
  ll_write_ret := (0, 0)
  user_read := fun _ => 0

/-- Concrete endpoint for witnesses: open, one reference, filter installed,
user callbacks installed, everything else quiescent. -/
def ndU : BasenData Unit where
  state := BasenState.BASEN_OPEN
  refcount := 1
  freeref := 1
  hasFilter := true
  f := ()
  open_done := false
  close_done := false
  read_enabled := false
  in_read := false
  xmit_enabled := false
  tmp_xmit_enabled := false
  saved_xmit_err := 0
  ll_err_occurred := false
  deferred_op_pending := false
  deferred_read := false
  deferred_open := false
  deferred_close := false
  cbs := true

/-- Concrete endpoint for the C8 counterexample: client open in flight
(BASEN_IN_LL_OPEN) with transmit interest set. -/
def ndC8 : BasenData Unit :=
  {ndU with
    state := BasenState.BASEN_IN_LL_OPEN
    xmit_enabled := true}

/-- Concrete endpoint for the C3 scenario: client open in flight with an
installed open_done and the refcount unit held by the outstanding LL
open. -/
def ndC3 : BasenData Unit :=
  {ndU with
    state := BasenState.BASEN_IN_LL_OPEN
    open_done := true
    refcount := 2}

section Lemmas

/-- Characterisation of the events the enable arbiter can emit: it only ever
enables, never disables. -/
theorem mem_basen_set_ll_enables (env : Env F) (nd : BasenData F) :
    ∀ e ∈ basen_set_ll_enables env nd,
      e = Ev.llSetWrite true ∨ e = Ev.llSetRead true := by
  intro e he
  unfold basen_set_ll_enables at he
  rcases List.mem_append.1 he with h | h <;> split at h <;> simp_all

/-- Characterisation of the events ll_close can emit. -/
theorem mem_ll_close (env : Env F) (nd : BasenData F) (k : CloseKind) :
    ∀ e ∈ (ll_close env nd k).tr, e = Ev.llCloseCall k ∨ e = Ev.schedOp := by
  intro e he
  by_cases hc : env.ll_close_ret = EINPROGRESS <;>
    by_cases hd : nd.deferred_op_pending <;>
      simp_all [ll_close, basen_sched_deferred_op, hc, hd]

/-- The filter try_disconnect is never driven by basen_finish_open. -/
theorem tryDisconnect_not_mem_finish_open_aux (nd : BasenData F) (err : Int) :
    Ev.tryDisconnect ∉ (basen_finish_open nd err).tr := by
  intro he
  unfold basen_finish_open at he
  dsimp only at he
  repeat' split at he
  all_goals simp at he

/-- Events of filter_ul_write: the filter ul_write marker or, with no
filter, the direct LL write. -/
theorem mem_filter_ul_write (env : Env F) (nd : BasenData F)
    (buf : Option (List Nat)) :
    ∀ e ∈ (filter_ul_write env nd buf).tr,
      e = Ev.ulWrite buf.isNone ∨ e = Ev.llWriteCall := by
  intro e he
  unfold filter_ul_write at he
  split at he <;> simp_all

/-- The enable arbiter never emits anything but the two enable events. -/
theorem not_mem_basen_set_ll_enables (env : Env F) (nd : BasenData F) (e : Ev)
    (h1 : e ≠ Ev.llSetWrite true) (h2 : e ≠ Ev.llSetRead true) :
    e ∉ basen_set_ll_enables env nd := fun he =>
  (mem_basen_set_ll_enables env nd e he).elim h1 h2

/-- An event that is neither the close call nor the scheduling marker is not
emitted by ll_close. -/
theorem not_mem_ll_close (env : Env F) (nd : BasenData F) (k : CloseKind)
    (e : Ev) (h1 : e ≠ Ev.llCloseCall k) (h2 : e ≠ Ev.schedOp) :
    e ∉ (ll_close env nd k).tr := fun he =>
  (mem_ll_close env nd k e he).elim h1 h2

/-- The user write callback is never invoked from basen_finish_open. -/
theorem userWrite_not_mem_finish_open (nd : BasenData F) (err : Int) :
    Ev.userWrite ∉ (basen_finish_open nd err).tr := by
  intro he
  unfold basen_finish_open at he
  dsimp only at he
  repeat' split at he
  all_goals simp at he

/-- The user write callback is never invoked from basen_try_connect. -/
theorem userWrite_not_mem_try_connect (env : Env F) (nd : BasenData F) :
    Ev.userWrite ∉ (basen_try_connect env nd).tr := by
  intro he
  unfold basen_try_connect filter_try_connect at he
  dsimp only at he
  repeat' (first | (split at he) | (dsimp only at he; split at he))
  all_goals try simp at he
  all_goals
    first
      | (rcases mem_ll_close env _ _ _ he with h2 | h2 <;> exact Ev.noConfusion h2)
      | (exact userWrite_not_mem_finish_open _ _ he)

/-- The user write callback is never invoked from basen_try_close. -/
theorem userWrite_not_mem_try_close (env : Env F) (nd : BasenData F) :
    Ev.userWrite ∉ (basen_try_close env nd).tr := by
  intro he
  unfold basen_try_close filter_try_disconnect at he
  dsimp only at he
  repeat' (first | (split at he) | (dsimp only at he; split at he))
  all_goals try simp at he
  all_goals
    rcases mem_ll_close env _ _ _ he with h2 | h2 <;> exact Ev.noConfusion h2

/-- The filter try_disconnect is never driven by basen_try_connect. -/
theorem tryDisconnect_not_mem_try_connect (env : Env F) (nd : BasenData F) :
    Ev.tryDisconnect ∉ (basen_try_connect env nd).tr := by
  intro he
  unfold basen_try_connect filter_try_connect at he
  dsimp only at he
  repeat' (first | (split at he) | (dsimp only at he; split at he))
  all_goals try simp at he
  all_goals
    first
      | (rcases mem_ll_close env _ _ _ he with h2 | h2 <;> exact Ev.noConfusion h2)
      | (exact tryDisconnect_not_mem_finish_open_aux _ _ he)

/-- The filter try_disconnect is driven by basen_try_close whenever a
filter is installed. -/
theorem tryDisconnect_mem_try_close (env : Env F) (nd : BasenData F)
    (h : nd.hasFilter = true) :
    Ev.tryDisconnect ∈ (basen_try_close env nd).tr := by
  unfold basen_try_close filter_try_disconnect
  dsimp only
  rw [if_pos h]
  dsimp only
  repeat' split
  all_goals simp

/-- The close call event is always in the ll_close trace. -/
theorem llCloseCall_mem_ll_close (env : Env F) (nd : BasenData F)
    (k : CloseKind) : Ev.llCloseCall k ∈ (ll_close env nd k).tr := by
  unfold ll_close basen_sched_deferred_op
  repeat' split
  all_goals simp

/-- Fields of the endpoint that ll_close leaves untouched. -/
theorem ll_close_nd_fields (env : Env F) (nd : BasenData F) (k : CloseKind) :
    (ll_close env nd k).nd.state = nd.state ∧
    (ll_close env nd k).nd.open_done = nd.open_done ∧
    (ll_close env nd k).nd.read_enabled = nd.read_enabled ∧
    (ll_close env nd k).nd.ll_err_occurred = nd.ll_err_occurred ∧
    (ll_close env nd k).nd.cbs = nd.cbs := by
  unfold ll_close basen_sched_deferred_op
  repeat' split
  all_goals exact ⟨rfl, rfl, rfl, rfl, rfl⟩

/-- The completion basen_ll_close_on_err fires the user open_done with the
carried error whenever one is installed. -/
theorem openDone_mem_ll_close_on_err (nd : BasenData F) (err : Int)
    (ho : nd.open_done = true) (he : err ≠ 0) :
    Ev.openDone err ∈ (basen_ll_close_on_err nd err).tr := by
  unfold basen_ll_close_on_err basen_finish_open
  dsimp only
  rw [if_pos he]
  dsimp only
  rw [if_pos ho]
  simp

/-- Unfolding equation for basen_write delivering a recorded error. -/
theorem basen_write_saved_eq (env : Env F) (nd : BasenData F) (buf : List Nat)
    (hs : nd.state = BasenState.BASEN_OPEN) (he : nd.saved_xmit_err ≠ 0) :
    basen_write env nd buf =
      ⟨{nd with saved_xmit_err := 0}, nd.saved_xmit_err, none,
       [Ev.lock] ++ basen_set_ll_enables env {nd with saved_xmit_err := 0} ++
         [Ev.unlock]⟩ := by
  unfold basen_write
  rw [if_neg (not_not_intro hs), if_pos he]

/-- Unfolding equation for basen_write in the open state with no recorded
error: the bytes go to the filter ul_write. -/
theorem basen_write_clean_eq (env : Env F) (nd : BasenData F) (buf : List Nat)
    (hs : nd.state = BasenState.BASEN_OPEN) (hz : nd.saved_xmit_err = 0) :
    basen_write env nd buf =
      ⟨(filter_ul_write env nd (some buf)).nd,
       (filter_ul_write env nd (some buf)).err,
       some (filter_ul_write env nd (some buf)).cnt,
       [Ev.lock] ++ (filter_ul_write env nd (some buf)).tr ++
         basen_set_ll_enables env (filter_ul_write env nd (some buf)).nd ++
         [Ev.unlock]⟩ := by
  unfold basen_write
  rw [if_neg (not_not_intro hs), if_neg (not_not_intro hz)]

/-- Unfolding equation for basen_ll_read with a read error. -/
theorem basen_ll_read_err_eq (env : Env F) (nd : BasenData F) (readerr : Int)
    (ibuf : List Nat) (h : readerr ≠ 0) :
    basen_ll_read env nd readerr ibuf =
      ⟨(basen_ll_read_err_branch env
          {nd with read_enabled := false, ll_err_occurred := true} readerr).nd,
       0,
       [Ev.lock, Ev.llSetRead false] ++
         (basen_ll_read_err_branch env
           {nd with read_enabled := false, ll_err_occurred := true} readerr).tr ++
         basen_set_ll_enables env
           (basen_ll_read_err_branch env
             {nd with read_enabled := false, ll_err_occurred := true} readerr).nd ++
         [Ev.unlock]⟩ := by
  unfold basen_ll_read
  rw [if_pos h]

/-- Unfolding equation for the error branch in an opening state. -/
theorem err_branch_opening_eq (env : Env F) (nd : BasenData F) (readerr : Int)
    (hst : nd.state = BasenState.BASEN_IN_FILTER_OPEN ∨
           nd.state = BasenState.BASEN_IN_LL_OPEN) :
    basen_ll_read_err_branch env nd readerr =
      ⟨(ll_close env {nd with state := BasenState.BASEN_IN_LL_CLOSE}
          (CloseKind.onErr ECOMM)).nd,
       Ev.stateSet BasenState.BASEN_IN_LL_CLOSE ::
         (ll_close env {nd with state := BasenState.BASEN_IN_LL_CLOSE}
           (CloseKind.onErr ECOMM)).tr⟩ := by
  unfold basen_ll_read_err_branch
  rw [if_pos hst]

/-- Unfolding equation for the error branch in a draining or
filter-closing state. -/
theorem err_branch_draining_eq (env : Env F) (nd : BasenData F)
    (readerr : Int)
    (h1 : ¬(nd.state = BasenState.BASEN_IN_FILTER_OPEN ∨
            nd.state = BasenState.BASEN_IN_LL_OPEN))
    (hst : nd.state = BasenState.BASEN_CLOSE_WAIT_DRAIN ∨
           nd.state = BasenState.BASEN_IN_FILTER_CLOSE) :
    basen_ll_read_err_branch env nd readerr =
      ⟨(ll_close env {nd with state := BasenState.BASEN_IN_LL_CLOSE}
          CloseKind.normal).nd,
       Ev.stateSet BasenState.BASEN_IN_LL_CLOSE ::
         (ll_close env {nd with state := BasenState.BASEN_IN_LL_CLOSE}
           CloseKind.normal).tr⟩ := by
  unfold basen_ll_read_err_branch
  rw [if_neg h1, if_pos hst]

/-- Unfolding equation for the error branch with user callbacks installed. -/
theorem err_branch_cbs_eq (env : Env F) (nd : BasenData F) (readerr : Int)
    (h1 : ¬(nd.state = BasenState.BASEN_IN_FILTER_OPEN ∨
            nd.state = BasenState.BASEN_IN_LL_OPEN))
    (h2 : ¬(nd.state = BasenState.BASEN_CLOSE_WAIT_DRAIN ∨
            nd.state = BasenState.BASEN_IN_FILTER_CLOSE))
    (h3 : nd.cbs = true) :
    basen_ll_read_err_branch env nd readerr =
      ⟨nd, [Ev.unlock, Ev.userRead readerr none, Ev.lock]⟩ := by
  unfold basen_ll_read_err_branch
  rw [if_neg h1, if_neg h2, if_pos h3]

/-- Unfolding equation for the error branch with no user callbacks: an
internal close is initiated. -/
theorem err_branch_noncbs_eq (env : Env F) (nd : BasenData F) (readerr : Int)
    (h1 : ¬(nd.state = BasenState.BASEN_IN_FILTER_OPEN ∨
            nd.state = BasenState.BASEN_IN_LL_OPEN))
    (h2 : ¬(nd.state = BasenState.BASEN_CLOSE_WAIT_DRAIN ∨
            nd.state = BasenState.BASEN_IN_FILTER_CLOSE))
    (h3 : nd.cbs = false) :
    basen_ll_read_err_branch env nd readerr =
      basen_i_close env nd false := by
  unfold basen_ll_read_err_branch
  rw [if_neg h1, if_neg h2, if_neg (by simp [h3])]

/-- Fields of the endpoint that basen_try_close leaves untouched. -/
theorem basen_try_close_fields (env : Env F) (nd : BasenData F) :
    (basen_try_close env nd).nd.read_enabled = nd.read_enabled ∧
    (basen_try_close env nd).nd.ll_err_occurred = nd.ll_err_occurred ∧
    (basen_try_close env nd).nd.open_done = nd.open_done := by
  unfold basen_try_close filter_try_disconnect
  dsimp only
  repeat' (first | (split) | (dsimp only; split))
  all_goals
    first
      | exact ⟨rfl, rfl, rfl⟩
      | exact ⟨(ll_close_nd_fields env _ _).2.2.1,
               (ll_close_nd_fields env _ _).2.2.2.1,
               (ll_close_nd_fields env _ _).2.1⟩

/-- Fields of the endpoint that basen_i_close leaves untouched. -/
theorem basen_i_close_fields (env : Env F) (nd : BasenData F) (cd : Bool) :
    (basen_i_close env nd cd).nd.read_enabled = nd.read_enabled ∧
    (basen_i_close env nd cd).nd.ll_err_occurred = nd.ll_err_occurred ∧
    (basen_i_close env nd cd).nd.open_done = nd.open_done := by
  unfold basen_i_close
  dsimp only
  repeat' (first | (split) | (dsimp only; split))
  all_goals
    first
      | exact ⟨rfl, rfl, rfl⟩
      | exact ⟨(ll_close_nd_fields env _ _).2.2.1,
               (ll_close_nd_fields env _ _).2.2.2.1,
               (ll_close_nd_fields env _ _).2.1⟩
      | exact ⟨(basen_try_close_fields env _).1,
               (basen_try_close_fields env _).2.1,
               (basen_try_close_fields env _).2.2⟩

/-- The error branch never touches read_enabled, ll_err_occurred or
open_done. -/
theorem err_branch_fields (env : Env F) (nd : BasenData F) (readerr : Int) :
    (basen_ll_read_err_branch env nd readerr).nd.read_enabled =
      nd.read_enabled ∧
    (basen_ll_read_err_branch env nd readerr).nd.ll_err_occurred =
      nd.ll_err_occurred ∧
    (basen_ll_read_err_branch env nd readerr).nd.open_done = nd.open_done := by
  unfold basen_ll_read_err_branch
  dsimp only
  repeat' (first | (split) | (dsimp only; split))
  all_goals
    first
      | exact ⟨rfl, rfl, rfl⟩
      | exact ⟨(ll_close_nd_fields env _ _).2.2.1,
               (ll_close_nd_fields env _ _).2.2.2.1,
               (ll_close_nd_fields env _ _).2.1⟩
      | exact ⟨(basen_i_close_fields env _ _).1,
               (basen_i_close_fields env _ _).2.1,
               (basen_i_close_fields env _ _).2.2⟩

/-- The user write callback is never invoked inside the drain section of
the LL write-ready callback. -/
theorem userWrite_not_mem_mid (env : Env F) (nd : BasenData F) :
    Ev.userWrite ∉ (basen_ll_write_ready_mid env nd).tr := by
  intro he
  unfold basen_ll_write_ready_mid at he
  dsimp only at he
  repeat' (first | (split at he) | (dsimp only at he; split at he))
  all_goals try simp at he
  all_goals
    repeat
      first
        | exact userWrite_not_mem_try_connect env _ he
        | exact userWrite_not_mem_try_close env _ he
        | (rcases mem_filter_ul_write env _ _ _ he with h2 | h2 <;>
             exact Ev.noConfusion h2)
        | (rcases he with he | he)

end Lemmas

section Claims

/-- C4: the enable arbiter basen_set_ll_enables enables LL write interest
exactly when the filter has LL-bound bytes pending or xmit_enabled or
tmp_xmit_enabled is set; it enables LL read interest exactly when in_read
is false and either the state is BASEN_OPEN with ((read_enabled and no
UL-pending bytes) or ll_read_needed), or the state is BASEN_IN_FILTER_OPEN
or BASEN_IN_FILTER_CLOSE; and it never disables either interest. -/
theorem basen_set_ll_enables_spec (env : Env F) (nd : BasenData F) :
    (Ev.llSetWrite true ∈ basen_set_ll_enables env nd ↔
      (filter_ll_write_pending env nd = true ∨ nd.xmit_enabled = true ∨
       nd.tmp_xmit_enabled = true)) ∧
    (Ev.llSetRead true ∈ basen_set_ll_enables env nd ↔
      (nd.in_read = false ∧
       ((nd.state = BasenState.BASEN_OPEN ∧
          ((nd.read_enabled = true ∧ filter_ul_read_pending env nd = false) ∨
           filter_ll_read_needed env nd = true)) ∨
        nd.state = BasenState.BASEN_IN_FILTER_OPEN ∨
        nd.state = BasenState.BASEN_IN_FILTER_CLOSE))) ∧
    Ev.llSetWrite false ∉ basen_set_ll_enables env nd ∧
    Ev.llSetRead false ∉ basen_set_ll_enables env nd := by
  refine ⟨?_, ?_,
    not_mem_basen_set_ll_enables env nd _ (by simp) (by simp),
    not_mem_basen_set_ll_enables env nd _ (by simp) (by simp)⟩ <;>
  · unfold basen_set_ll_enables
    cases hst : nd.state <;>
      cases hir : nd.in_read <;>
      cases hre : nd.read_enabled <;>
      cases hxe : nd.xmit_enabled <;>
      cases htx : nd.tmp_xmit_enabled <;>
      cases hwp : filter_ll_write_pending env nd <;>
      cases hup : filter_ul_read_pending env nd <;>
      cases hrn : filter_ll_read_needed env nd <;>
      simp

/-- C9: the internal read-data handler reports 0 consumed and does not
invoke the user read callback unless the state is BASEN_OPEN and
read_enabled is set, in which case it invokes the user read callback with
the given buffer and reports exactly the count the user returned. -/
theorem basen_read_data_handler_spec (env : Env F) (nd : BasenData F)
    (buf : Option (List Nat)) :
    basen_read_data_handler env nd buf =
      if nd.state = BasenState.BASEN_OPEN ∧ nd.read_enabled = true then
        (env.user_read buf, [Ev.userRead 0 buf])
      else (0, []) := by
  unfold basen_read_data_handler
  split_ifs with h1 h2 <;> first | rfl | simp_all

/-- C10: calling either user-facing callback-enable entry point while the
state is BASEN_CLOSED, BASEN_IN_FILTER_CLOSE or BASEN_IN_LL_CLOSE is a
complete no-op: every endpoint field is unchanged and the trace holds
nothing but the lock acquisition and release. -/
theorem basen_set_callback_enable_noop (env : Env F) (nd : BasenData F)
    (b : Bool)
    (h : nd.state = BasenState.BASEN_CLOSED ∨
         nd.state = BasenState.BASEN_IN_FILTER_CLOSE ∨
         nd.state = BasenState.BASEN_IN_LL_CLOSE) :
    basen_set_read_callback_enable env nd b = ⟨nd, [Ev.lock, Ev.unlock]⟩ ∧
    basen_set_write_callback_enable env nd b = ⟨nd, [Ev.lock, Ev.unlock]⟩ := by
  unfold basen_set_read_callback_enable basen_set_write_callback_enable
  rw [if_pos h, if_pos h]
  exact ⟨rfl, rfl⟩

/-- Witness for C10 at a concrete closed endpoint. -/
theorem basen_set_callback_enable_noop_witness :
    basen_set_read_callback_enable envU
        {ndU with state := BasenState.BASEN_CLOSED} true =
      ⟨{ndU with state := BasenState.BASEN_CLOSED}, [Ev.lock, Ev.unlock]⟩ ∧
    basen_set_write_callback_enable envU
        {ndU with state := BasenState.BASEN_CLOSED} true =
      ⟨{ndU with state := BasenState.BASEN_CLOSED}, [Ev.lock, Ev.unlock]⟩ :=
  basen_set_callback_enable_noop envU
    {ndU with state := BasenState.BASEN_CLOSED} true (Or.inl rfl)

/-- C7: a user write in any state other than BASEN_OPEN returns EBADF,
consumes nothing, changes nothing, and drives neither the filter ul_write
nor the LL write. -/
theorem basen_write_not_open_spec (env : Env F) (nd : BasenData F)
    (buf : List Nat) (h : nd.state ≠ BasenState.BASEN_OPEN) :
    (basen_write env nd buf).err = EBADF ∧
    (basen_write env nd buf).consumed = none ∧
    (basen_write env nd buf).nd = nd ∧
    (∀ b, Ev.ulWrite b ∉ (basen_write env nd buf).tr) ∧
    Ev.llWriteCall ∉ (basen_write env nd buf).tr := by
  unfold basen_write
  rw [if_pos h]
  refine ⟨rfl, rfl, rfl, ?_, ?_⟩
  · intro b hb
    rcases List.mem_append.1 hb with hb | hb
    · rcases List.mem_append.1 hb with hb | hb
      · simp at hb
      · exact not_mem_basen_set_ll_enables env nd _ (by simp) (by simp) hb
    · simp at hb
  · intro hb
    rcases List.mem_append.1 hb with hb | hb
    · rcases List.mem_append.1 hb with hb | hb
      · simp at hb
      · exact not_mem_basen_set_ll_enables env nd _ (by simp) (by simp) hb
    · simp at hb

/-- Witness for C7 at a concrete closed endpoint. -/
theorem basen_write_not_open_witness :
    (basen_write envU {ndU with state := BasenState.BASEN_CLOSED} [1]).err =
      EBADF ∧
    (basen_write envU {ndU with state := BasenState.BASEN_CLOSED} [1]).consumed
      = none := by
  have h := basen_write_not_open_spec envU
    {ndU with state := BasenState.BASEN_CLOSED} [1] (by decide)
  exact ⟨h.1, h.2.1⟩

/-- C6: a user close succeeds (returns 0) exactly from BASEN_OPEN,
BASEN_IN_LL_OPEN and BASEN_IN_FILTER_OPEN, in the two opening states
additionally dropping the refcount unit held by the in-flight open; from
every other state it returns EBUSY leaving the endpoint unchanged. -/
theorem basen_close_spec (env : Env F) (nd : BasenData F) (cd : Bool) :
    (nd.state = BasenState.BASEN_OPEN →
       (basen_close env nd cd).ret = 0 ∧
       (basen_close env nd cd).nd = (basen_i_close env nd cd).nd) ∧
    ((nd.state = BasenState.BASEN_IN_LL_OPEN ∨
      nd.state = BasenState.BASEN_IN_FILTER_OPEN) →
       (basen_close env nd cd).ret = 0 ∧
       (basen_close env nd cd).nd =
         {(basen_i_close env nd cd).nd with
            refcount := (basen_i_close env nd cd).nd.refcount - 1}) ∧
    ((nd.state = BasenState.BASEN_CLOSED ∨
      nd.state = BasenState.BASEN_CLOSE_WAIT_DRAIN ∨
      nd.state = BasenState.BASEN_IN_FILTER_CLOSE ∨
      nd.state = BasenState.BASEN_IN_LL_CLOSE) →
       (basen_close env nd cd).ret = EBUSY ∧
       (basen_close env nd cd).nd = nd ∧
       (basen_close env nd cd).tr = [Ev.lock, Ev.unlock]) := by
  refine ⟨?_, ?_, ?_⟩
  · intro h
    unfold basen_close
    rw [if_neg (not_not_intro h)]
    exact ⟨rfl, rfl⟩
  · intro h
    have h1 : nd.state ≠ BasenState.BASEN_OPEN := by
      rcases h with h | h <;> simp [h]
    have h2 : nd.state = BasenState.BASEN_IN_FILTER_OPEN ∨
        nd.state = BasenState.BASEN_IN_LL_OPEN := h.elim Or.inr Or.inl
    unfold basen_close
    rw [if_pos h1, if_pos h2]
    exact ⟨rfl, rfl⟩
  · intro h
    have h1 : nd.state ≠ BasenState.BASEN_OPEN := by
      rcases h with h | h | h | h <;> simp [h]
    have h2 : ¬(nd.state = BasenState.BASEN_IN_FILTER_OPEN ∨
        nd.state = BasenState.BASEN_IN_LL_OPEN) := by
      rcases h with h | h | h | h <;> simp [h]
    unfold basen_close
    rw [if_pos h1, if_neg h2]
    exact ⟨rfl, rfl, rfl⟩

/-- Witness for C6 at a concrete closed endpoint, where close is refused. -/
theorem basen_close_spec_witness :
    (basen_close envU {ndU with state := BasenState.BASEN_CLOSED} false).ret =
      EBUSY ∧
    (basen_close envU {ndU with state := BasenState.BASEN_CLOSED} false).nd =
      {ndU with state := BasenState.BASEN_CLOSED} := by
  have h := (basen_close_spec envU
    {ndU with state := BasenState.BASEN_CLOSED} false).2.2 (Or.inl rfl)
  exact ⟨h.1, h.2.1⟩

/-- C1: when a close is initiated on an open endpoint via basen_i_close:
with ll_err_occurred set the state moves directly to BASEN_IN_LL_CLOSE and
the LL close is issued with the filter disconnect handshake skipped;
otherwise with LL-bound bytes pending the state becomes
BASEN_CLOSE_WAIT_DRAIN and no LL close is issued yet; otherwise the state
is set to BASEN_IN_FILTER_CLOSE and the filter try_disconnect is driven. -/
theorem basen_i_close_spec (env : Env F) (nd : BasenData F) (cd : Bool)
    (h : nd.state = BasenState.BASEN_OPEN) :
    (nd.ll_err_occurred = true →
       (basen_i_close env nd cd).nd.state = BasenState.BASEN_IN_LL_CLOSE ∧
       Ev.llCloseCall CloseKind.normal ∈ (basen_i_close env nd cd).tr ∧
       Ev.tryDisconnect ∉ (basen_i_close env nd cd).tr) ∧
    (nd.ll_err_occurred = false → filter_ll_write_pending env nd = true →
       (basen_i_close env nd cd).nd.state =
         BasenState.BASEN_CLOSE_WAIT_DRAIN ∧
       (∀ k, Ev.llCloseCall k ∉ (basen_i_close env nd cd).tr)) ∧
    (nd.ll_err_occurred = false → filter_ll_write_pending env nd = false →
       Ev.stateSet BasenState.BASEN_IN_FILTER_CLOSE ∈
         (basen_i_close env nd cd).tr ∧
       (nd.hasFilter = true →
          Ev.tryDisconnect ∈ (basen_i_close env nd cd).tr)) := by
  refine ⟨?_, ?_, ?_⟩
  · intro he
    unfold basen_i_close
    dsimp only
    rw [if_pos he]
    dsimp only
    refine ⟨?_, ?_, ?_⟩
    · exact (ll_close_nd_fields env _ _).1
    · exact List.mem_append.2 (Or.inl (List.mem_append.2
        (Or.inr (llCloseCall_mem_ll_close env _ _))))
    · intro hm
      rcases List.mem_append.1 hm with hm | hm
      · rcases List.mem_append.1 hm with hm | hm
        · simp at hm
        · exact not_mem_ll_close env _ _ _ (by simp) (by simp) hm
      · exact not_mem_basen_set_ll_enables env _ _ (by simp) (by simp) hm
  · intro he hp
    have hp2 : filter_ll_write_pending env {nd with close_done := cd} = true := by
      simpa [filter_ll_write_pending] using hp
    unfold basen_i_close
    dsimp only
    rw [if_neg (by simp [he]), if_pos hp2]
    dsimp only
    refine ⟨rfl, ?_⟩
    intro k hm
    rcases List.mem_append.1 hm with hm | hm
    · simp at hm
    · exact not_mem_basen_set_ll_enables env _ _ (by simp) (by simp) hm
  · intro he hp
    have hp2 : ¬(filter_ll_write_pending env {nd with close_done := cd} = true) := by
      simp [filter_ll_write_pending] at hp ⊢
      simpa [filter_ll_write_pending] using hp
    unfold basen_i_close
    dsimp only
    rw [if_neg (by simp [he]), if_neg hp2]
    dsimp only
    refine ⟨by simp, ?_⟩
    intro hf
    exact List.mem_append.2 (Or.inl (List.mem_append.2
      (Or.inr (tryDisconnect_mem_try_close env _ hf))))

/-- Witness for C1 at a concrete open endpoint with an LL error recorded:
close skips the handshake and goes straight to BASEN_IN_LL_CLOSE. -/
theorem basen_i_close_spec_witness :
    (basen_i_close envU {ndU with ll_err_occurred := true} false).nd.state =
      BasenState.BASEN_IN_LL_CLOSE ∧
    Ev.llCloseCall CloseKind.normal ∈
      (basen_i_close envU {ndU with ll_err_occurred := true} false).tr := by
  have h := (basen_i_close_spec envU {ndU with ll_err_occurred := true}
    false rfl).1 rfl
  exact ⟨h.1, h.2.1⟩

/-- C5: with the endpoint open and a nonzero saved_xmit_err recorded, the
next user write returns that error without passing bytes to the filter or
the LL and clears saved_xmit_err, and a second write afterwards gets the
filter result instead of the recorded error. -/
theorem basen_write_saved_err_spec (env : Env F) (nd : BasenData F)
    (b1 b2 : List Nat) (hs : nd.state = BasenState.BASEN_OPEN)
    (he : nd.saved_xmit_err ≠ 0) :
    (basen_write env nd b1).err = nd.saved_xmit_err ∧
    (basen_write env nd b1).consumed = none ∧
    (basen_write env nd b1).nd.saved_xmit_err = 0 ∧
    (∀ b, Ev.ulWrite b ∉ (basen_write env nd b1).tr) ∧
    Ev.llWriteCall ∉ (basen_write env nd b1).tr ∧
    (basen_write env (basen_write env nd b1).nd b2).err =
      (filter_ul_write env (basen_write env nd b1).nd (some b2)).err := by
  rw [basen_write_saved_eq env nd b1 hs he]
  dsimp only
  refine ⟨rfl, rfl, rfl, ?_, ?_, ?_⟩
  · intro b hb
    rcases List.mem_append.1 hb with hb | hb
    · rcases List.mem_append.1 hb with hb | hb
      · simp at hb
      · exact not_mem_basen_set_ll_enables env _ _ (by simp) (by simp) hb
    · simp at hb
  · intro hb
    rcases List.mem_append.1 hb with hb | hb
    · rcases List.mem_append.1 hb with hb | hb
      · simp at hb
      · exact not_mem_basen_set_ll_enables env _ _ (by simp) (by simp) hb
    · simp at hb
  · rw [basen_write_clean_eq env {nd with saved_xmit_err := 0} b2
      (by simpa using hs) rfl]

/-- Witness for C5 at a concrete open endpoint with saved error 33: the
first write returns 33, the second returns the filter result 0. -/
theorem basen_write_saved_err_witness :
    (basen_write envU {ndU with saved_xmit_err := 33} []).err = 33 ∧
    (basen_write envU
      (basen_write envU {ndU with saved_xmit_err := 33} []).nd []).err = 0 := by
  have h := basen_write_saved_err_spec envU {ndU with saved_xmit_err := 33}
    [] [] rfl (by decide)
  refine ⟨by simpa using h.1, ?_⟩
  rw [h.2.2.2.2.2]
  decide

/-- C2: an LL read callback with a nonzero error clears read_enabled, sets
ll_err_occurred and consumes nothing; from an opening state it moves to
BASEN_IN_LL_CLOSE issuing the LL close whose completion
(basen_ll_close_on_err with ECOMM) fires open_done with ECOMM; from
BASEN_CLOSE_WAIT_DRAIN or BASEN_IN_FILTER_CLOSE it moves to
BASEN_IN_LL_CLOSE with the normal close completion; otherwise with user
callbacks installed it invokes the user read callback with the error, a
null buffer and zero length with the lock dropped, and with none an
internal close is initiated. -/
theorem basen_ll_read_err_spec (env : Env F) (nd : BasenData F)
    (readerr : Int) (ibuf : List Nat) (h : readerr ≠ 0) :
    (basen_ll_read env nd readerr ibuf).nd.read_enabled = false ∧
    (basen_ll_read env nd readerr ibuf).nd.ll_err_occurred = true ∧
    (basen_ll_read env nd readerr ibuf).cnt = 0 ∧
    ((nd.state = BasenState.BASEN_IN_LL_OPEN ∨
      nd.state = BasenState.BASEN_IN_FILTER_OPEN) →
       (basen_ll_read env nd readerr ibuf).nd.state =
         BasenState.BASEN_IN_LL_CLOSE ∧
       Ev.llCloseCall (CloseKind.onErr ECOMM) ∈
         (basen_ll_read env nd readerr ibuf).tr ∧
       (nd.open_done = true →
          Ev.openDone ECOMM ∈
            (basen_ll_close_on_err (basen_ll_read env nd readerr ibuf).nd
              ECOMM).tr)) ∧
    ((nd.state = BasenState.BASEN_CLOSE_WAIT_DRAIN ∨
      nd.state = BasenState.BASEN_IN_FILTER_CLOSE) →
       (basen_ll_read env nd readerr ibuf).nd.state =
         BasenState.BASEN_IN_LL_CLOSE ∧
       Ev.llCloseCall CloseKind.normal ∈
         (basen_ll_read env nd readerr ibuf).tr) ∧
    ((nd.state = BasenState.BASEN_CLOSED ∨
      nd.state = BasenState.BASEN_OPEN ∨
      nd.state = BasenState.BASEN_IN_LL_CLOSE) →
       (nd.cbs = true →
          (basen_ll_read env nd readerr ibuf).tr =
            [Ev.lock, Ev.llSetRead false, Ev.unlock,
             Ev.userRead readerr none, Ev.lock] ++
              basen_set_ll_enables env (basen_ll_read env nd readerr ibuf).nd
              ++ [Ev.unlock]) ∧
       (nd.cbs = false →
          (basen_ll_read env nd readerr ibuf).nd =
            (basen_i_close env
              {nd with read_enabled := false, ll_err_occurred := true}
              false).nd)) := by
  rw [basen_ll_read_err_eq env nd readerr ibuf h]
  dsimp only
  refine ⟨?_, ?_, rfl, ?_, ?_, ?_⟩
  · exact (err_branch_fields env _ readerr).1
  · exact (err_branch_fields env _ readerr).2.1
  · intro hst
    rw [err_branch_opening_eq env
      {nd with read_enabled := false, ll_err_occurred := true} readerr
      (hst.elim Or.inr Or.inl)]
    dsimp only
    refine ⟨(ll_close_nd_fields env _ _).1, ?_, ?_⟩
    · simp [llCloseCall_mem_ll_close]
    · intro ho
      exact openDone_mem_ll_close_on_err _ ECOMM
        (((ll_close_nd_fields env _ _).2.1).trans ho) (by decide)
  · intro hst
    have h1 : ¬(nd.state = BasenState.BASEN_IN_FILTER_OPEN ∨
        nd.state = BasenState.BASEN_IN_LL_OPEN) := by
      rcases hst with h2 | h2 <;> simp [h2]
    rw [err_branch_draining_eq env
      {nd with read_enabled := false, ll_err_occurred := true} readerr h1 hst]
    dsimp only
    refine ⟨(ll_close_nd_fields env _ _).1, ?_⟩
    simp [llCloseCall_mem_ll_close]
  · intro hst
    have h1 : ¬(nd.state = BasenState.BASEN_IN_FILTER_OPEN ∨
        nd.state = BasenState.BASEN_IN_LL_OPEN) := by
      rcases hst with h2 | h2 | h2 <;> simp [h2]
    have h2 : ¬(nd.state = BasenState.BASEN_CLOSE_WAIT_DRAIN ∨
        nd.state = BasenState.BASEN_IN_FILTER_CLOSE) := by
      rcases hst with h3 | h3 | h3 <;> simp [h3]
    constructor
    · intro hc
      rw [err_branch_cbs_eq env
        {nd with read_enabled := false, ll_err_occurred := true} readerr h1 h2 hc]
      simp
    · intro hc
      rw [err_branch_noncbs_eq env
        {nd with read_enabled := false, ll_err_occurred := true} readerr h1 h2 hc]

/-- Witness for C2 at a concrete endpoint in BASEN_IN_LL_OPEN taking an
ECONNRESET read error. -/
theorem basen_ll_read_err_witness :
    (basen_ll_read envU
        {ndU with state := BasenState.BASEN_IN_LL_OPEN, open_done := true}
        ECONNRESET []).nd.state = BasenState.BASEN_IN_LL_CLOSE ∧
    Ev.llCloseCall (CloseKind.onErr ECOMM) ∈
      (basen_ll_read envU
        {ndU with state := BasenState.BASEN_IN_LL_OPEN, open_done := true}
        ECONNRESET []).tr := by
  have h := ((basen_ll_read_err_spec envU
    {ndU with state := BasenState.BASEN_IN_LL_OPEN, open_done := true}
    ECONNRESET [] (by decide)).2.2.2.1) (Or.inl rfl)
  exact ⟨h.1, h.2.1⟩

/-- C8 amended: in every LL write-ready callback invocation the user write
callback is invoked exactly when, at the check point after the drain
section, xmit_enabled is set, the filter has no LL-pending bytes and the
state is not BASEN_IN_FILTER_OPEN (the code does not exclude
BASEN_IN_LL_OPEN); and tmp_xmit_enabled is false when the callback
returns. -/
theorem basen_ll_write_ready_spec (env : Env F) (nd : BasenData F) :
    (Ev.userWrite ∈ (basen_ll_write_ready env nd).tr ↔
      ((basen_ll_write_ready_mid env nd).nd.state ≠
         BasenState.BASEN_IN_FILTER_OPEN ∧
       filter_ll_write_pending env (basen_ll_write_ready_mid env nd).nd =
         false ∧
       (basen_ll_write_ready_mid env nd).nd.xmit_enabled = true)) ∧
    (basen_ll_write_ready env nd).nd.tmp_xmit_enabled = false := by
  constructor
  · unfold basen_ll_write_ready
    dsimp only
    constructor
    · intro hm
      rcases List.mem_append.1 hm with hm | hm
      · rcases List.mem_append.1 hm with hm | hm
        · rcases List.mem_append.1 hm with hm | hm
          · rcases List.mem_append.1 hm with hm | hm
            · simp at hm
            · exact absurd hm (userWrite_not_mem_mid env nd)
          · split at hm
            next hcond => exact hcond
            next => simp at hm
        · exact absurd hm
            (not_mem_basen_set_ll_enables env _ _ (by simp) (by simp))
      · simp at hm
    · intro hc
      rw [if_pos hc]
      simp
  · unfold basen_ll_write_ready
    dsimp only

/-- C8 counterexample: with the endpoint in the opening state
BASEN_IN_LL_OPEN, transmit interest set and nothing pending in the filter,
the LL write-ready callback does invoke the user write callback, although
the claim as stated requires the state not to be an opening state for the
invocation to happen. -/
theorem basen_ll_write_ready_opening_cx :
    ndC8.state = BasenState.BASEN_IN_LL_OPEN ∧
    ndC8.xmit_enabled = true ∧
    filter_ll_write_pending envU ndC8 = false ∧
    Ev.userWrite ∈ (basen_ll_write_ready envU ndC8).tr := by
  decide

/-- C3 evidence of the code bug: a user close accepted while the state is
BASEN_IN_LL_OPEN succeeds (returns 0), yet when the outstanding LL open
later completes with an error, basen_ll_open_done runs basen_finish_open,
which fires the still-installed open_done completion with that error —
contradicting the claim that open_done is never invoked after the close. -/
theorem close_during_open_then_open_done_fires :
    (basen_close envU ndC3 true).ret = 0 ∧
    Ev.openDone ECONNRESET ∈
      (basen_ll_open_done envU (basen_close envU ndC3 true).nd
        ECONNRESET).tr := by
  decide

end Claims

end GenioBase
